import Mathlib

/-!
Shallow embedding of `longiyNodes.py` (a Blender add-on adding node-group
templates to node editors), together with theorems settling the frozen
claims about its specification.

The embedding models:
* the per-category template cache `node_template_cache` (with its four
  module-level cache variables) as a pure function over an explicit
  `CacheState`, a filesystem model `FS`, and the add-on preferences;
* the importer `node_template_add` as a pure function over an optional
  node tree, a library model (file path to contained group names), and a
  host-reported attach-compatibility flag;
* host-owned opaque operations (`bpy.ops.node.group_ungroup`, report
  callbacks) as recorded flags in the output, and Python exceptions
  (KeyError from the dict lookup, AssertionError from `assert`) as
  explicit result constructors.
Node locations (mathutils Vectors) are modelled as pairs of rationals.
-/

/-- A `.blend` file (or any directory entry) as seen by the scan loop:
its file name and, when `bpy.data.libraries.load` succeeds on it, the list
of node-group names it reports via `data_from.node_groups`; `none` means
opening the file raises an exception (corrupt/unreadable file). -/
structure BlendFile where
  fname : String
  groups : Option (List String)
deriving DecidableEq, Repr

/-- The filesystem as used by `node_template_cache`: `os.path.exists` and
`os.listdir` (the latter paired with each file's load outcome). -/
structure FS where
  dirExists : String → Bool
  listdir : String → List BlendFile

/-- The four directory-path preferences of `NodeTemplatePrefs`. -/
structure NodeTemplatePrefs where
  search_path_geometry : String
  search_path_shader : String
  search_path_compositing : String
  search_path_texture : String
deriving DecidableEq, Repr

/-- `node_search_path` (source lines 94-103): the dict `.get`, returning
`none` for a ui_type outside the four keys. -/
def node_search_path (prefs : NodeTemplatePrefs) (ui_type : String) : Option String :=
  if ui_type = "GeometryNodeTree" then some prefs.search_path_geometry
  else if ui_type = "ShaderNodeTree" then some prefs.search_path_shader
  else if ui_type = "CompositorNodeTree" then some prefs.search_path_compositing
  else if ui_type = "TextureNodeTree" then some prefs.search_path_texture
  else none

/-- A cache entry `(group_name, filepath)` as appended at source line 228. -/
abbrev TemplateEntry := String × String

/-- Python's `str.endswith`: the suffix test on the code-point sequence.
(Equivalent to `String.endsWith`; stated over the character list so that
concrete instances reduce in the kernel.) -/
def pyEndsWith (s suffix : String) : Bool :=
  List.isSuffixOf suffix.data s.data

/-- Python's `str.startswith`: the prefix test on the code-point sequence.
(Equivalent to `String.startsWith`; stated over the character list so that
concrete instances reduce in the kernel.) -/
def pyStartsWith (s pre : String) : Bool :=
  List.isPrefixOf pre.data s.data

/-- The scan loop of `node_template_cache` (source lines 221-231): for each
directory entry ending in `.blend`, open it; a file that fails to open is
skipped (`except Exception: continue`) and contributes nothing; from a file
that opens, every group name not starting with `_` is paired with the
file's path. -/
def scanDir (dirpath : String) (files : List BlendFile) : List TemplateEntry :=
  files.flatMap (fun f =>
    if pyEndsWith f.fname ".blend" then
      match f.groups with
      | some gs =>
          (gs.filter (fun g => ¬ pyStartsWith g "_")).map
            (fun g => (g, dirpath ++ "/" ++ f.fname))
      | none => []
    else [])

/-- Lexicographic comparison of code-point sequences, as Python compares
strings: compare head code points, a strict prefix is smaller. -/
def charListLt : List Char → List Char → Bool
  | [], [] => false
  | [], _ :: _ => true
  | _ :: _, [] => false
  | a :: as, b :: bs =>
    if a.toNat < b.toNat then true
    else if b.toNat < a.toNat then false
    else charListLt as bs

/-- Python's `<` on strings: lexicographic by code point. -/
def strLt (a b : String) : Bool :=
  charListLt a.data b.data

/-- The order Python's `sorted` uses on `(str, str)` tuples: lexicographic,
first component strictly smaller, or equal first components and second
component no larger. -/
def entryLe (x y : TemplateEntry) : Prop :=
  strLt x.1 y.1 = true ∨ (x.1 = y.1 ∧ strLt y.2 x.2 = false)

instance : DecidableRel entryLe := fun x y => by
  unfold entryLe; infer_instance

/-- Python's `sorted` at source line 233: a sort of the list under the
tuple order (any correct sort; the order is antisymmetric so the result
is unique). -/
def pySorted (l : List TemplateEntry) : List TemplateEntry :=
  l.insertionSort entryLe

/-- The four module-level cache variables initialised at source
lines 253-260. -/
structure CacheState where
  node_cache_geometry : List TemplateEntry
  node_cache_geometry_path : String
  node_cache_shader : List TemplateEntry
  node_cache_shader_path : String
  node_cache_compositing : List TemplateEntry
  node_cache_compositing_path : String
  node_cache_texture : List TemplateEntry
  node_cache_texture_path : String
deriving DecidableEq, Repr

/-- The cache state at module load (source lines 253-260): all caches
empty, all stored paths the empty string. -/
def initCacheState : CacheState :=
  ⟨[], "", [], "", [], "", [], ""⟩

/-- Reading the cache variable pair for a ui_type (the if/elif chain at
source lines 193-211); `none` corresponds to the `else: return []` arm. -/
def cacheFor (st : CacheState) (ui : String) :
    Option (List TemplateEntry × String) :=
  if ui = "GeometryNodeTree" then
    some (st.node_cache_geometry, st.node_cache_geometry_path)
  else if ui = "ShaderNodeTree" then
    some (st.node_cache_shader, st.node_cache_shader_path)
  else if ui = "CompositorNodeTree" then
    some (st.node_cache_compositing, st.node_cache_compositing_path)
  else if ui = "TextureNodeTree" then
    some (st.node_cache_texture, st.node_cache_texture_path)
  else none

/-- Writing back the cache variable pair for a ui_type (the if/elif chain
at source lines 236-247; a ui_type outside the four leaves the state
unchanged, mirroring that no branch fires). -/
def storeCache (st : CacheState) (ui : String) (c : List TemplateEntry)
    (p : String) : CacheState :=
  if ui = "GeometryNodeTree" then
    { st with node_cache_geometry := c, node_cache_geometry_path := p }
  else if ui = "ShaderNodeTree" then
    { st with node_cache_shader := c, node_cache_shader_path := p }
  else if ui = "CompositorNodeTree" then
    { st with node_cache_compositing := c, node_cache_compositing_path := p }
  else if ui = "TextureNodeTree" then
    { st with node_cache_texture := c, node_cache_texture_path := p }
  else st

/-- Output of one `node_template_cache` call: the returned list, the cache
state after the call, and how many directory scans (executions of the
`os.listdir` loop at source lines 221-231) the call performed. -/
structure CacheOut where
  result : List TemplateEntry
  state : CacheState
  scans : Nat
deriving DecidableEq, Repr

/-- `node_template_cache` (source lines 183-249) as a pure state-passing
function. `ui_type` is the result of `get_ui_type_from_context` (one of
the four tree-type names, or `none`); `reload` is the keyword argument;
`dirpath` comes from `node_search_path` and is rejected when falsy (empty
string) or nonexistent. Order of operations follows the source: pick the
per-category cache pair, force `reload` when the stored path differs,
clear on reload, return a non-empty cache without scanning, otherwise
scan, sort, store, and return. -/
def node_template_cache (fs : FS) (prefs : NodeTemplatePrefs)
    (ui_type : Option String) (reload : Bool) (st : CacheState) : CacheOut :=
  match ui_type with
  | none => ⟨[], st, 0⟩
  | some ui =>
    match node_search_path prefs ui with
    | none => ⟨[], st, 0⟩
    | some dirpath =>
      if dirpath = "" ∨ ¬ fs.dirExists dirpath then ⟨[], st, 0⟩
      else
        match cacheFor st ui with
        | none => ⟨[], st, 0⟩
        | some (cache0, path0) =>
          let reload1 := if path0 ≠ dirpath then true else reload
          let cache1 := if reload1 then [] else cache0
          if cache1 ≠ [] then ⟨cache1, st, 0⟩
          else if ¬ fs.dirExists dirpath then ⟨[], st, 0⟩
          else
            let nc := pySorted (scanDir dirpath (fs.listdir dirpath))
            ⟨nc, storeCache st ui nc dirpath, 1⟩

/-- A node in a node tree, with the attributes `node_template_add`
touches: selection flag, 2D location (rationals model the float vector),
the node's type string, and the attached group (`node.node_tree`), `none`
when unset or when the host refused the assignment. -/
structure GNode where
  select : Bool
  location : ℚ × ℚ
  ntype : String
  tree_ref : Option String
deriving DecidableEq, Repr

/-- The edited node tree (`space.edit_tree`): its runtime type name
(`type(node_tree).__name__`), its node list, and the active-node index
(`node_tree.nodes.active`). -/
structure NodeTree where
  typeName : String
  nodes : List GNode
  active : Option Nat
deriving DecidableEq, Repr

/-- `node_center` (source lines 30-38): starts from the origin; when the
selection is non-empty, sums the selected nodes' locations and divides by
their count. Modelled over the node list, selection read from the nodes'
`select` flags (as `context.selected_nodes` reports). -/
def node_center (nodes : List GNode) : ℚ × ℚ :=
  let node_selected := nodes.filter (fun n => n.select)
  match node_selected with
  | [] => (0, 0)
  | _ =>
    let s := node_selected.foldl
      (fun acc n => (acc.1 + n.location.1, acc.2 + n.location.2)) (0, 0)
    (s.1 / node_selected.length, s.2 / node_selected.length)

/-- The node-type dict at source lines 66-71; `none` models the KeyError
raised on a tree type outside the four keys. -/
def node_type_string (typeName : String) : Option String :=
  if typeName = "ShaderNodeTree" then some "ShaderNodeGroup"
  else if typeName = "CompositorNodeTree" then some "CompositorNodeGroup"
  else if typeName = "TextureNodeTree" then some "TextureNodeGroup"
  else if typeName = "GeometryNodeTree" then some "GeometryNodeGroup"
  else none

/-- How one `node_template_add` call ends: early return with an ERROR
report (no node tree), an uncaught AssertionError (asset name absent from
the file), an uncaught KeyError (tree type outside the dict), or normal
completion (`warned` true when the WARNING at source line 78 fired). -/
inductive AddResult where
  | errNoTree
  | assertFail
  | keyError
  | finished (warned : Bool)
deriving DecidableEq, Repr

/-- Output of one `node_template_add` call: how it ended, the node tree
afterwards, how many times `bpy.data.libraries.load` was entered, and
whether `bpy.ops.node.group_ungroup` was invoked (the ungroup operation
itself is host-owned and left opaque). -/
structure AddOut where
  result : AddResult
  tree : Option NodeTree
  loads : Nat
  ungrouped : Bool
deriving DecidableEq, Repr

/-- `node_template_add` (source lines 41-88) as a pure function.
`lib` models `bpy.data.libraries.load`: for each file path, the group
names the file contains (`data_from.node_groups`). `attach_ok` models the
host's verdict on the assignment `node.node_tree = node_group` at source
line 74: when the host refuses (kind mismatch) the attribute stays `None`.
Steps, in source order: bail out with an ERROR report when the tree is
`None`; load the library and assert the name is present; compute the
centre from the still-current selection; deselect every node; look the
tree's type up in the dict (KeyError when absent); create the group node,
attach, warn on failure, select it, make it active, place it at the
centre; on failure remove it (the host clears the active pointer),
otherwise ungroup when requested. -/
def node_template_add (lib : String → List String) (attach_ok : Bool)
    (tree? : Option NodeTree) (filepath : String) (node_group : String)
    (ungroup : Bool) : AddOut :=
  match tree? with
  | none => ⟨.errNoTree, none, 0, false⟩
  | some tree =>
    if node_group ∈ lib filepath then
      let center := node_center tree.nodes
      let deselected := tree.nodes.map (fun n => { n with select := false })
      match node_type_string tree.typeName with
      | none => ⟨.keyError, some { tree with nodes := deselected }, 1, false⟩
      | some nts =>
        if attach_ok then
          let newNode : GNode :=
            ⟨true, center, nts, some node_group⟩
          ⟨.finished false,
           some ⟨tree.typeName, deselected ++ [newNode], some deselected.length⟩,
           1, ungroup⟩
        else
          ⟨.finished true, some ⟨tree.typeName, deselected, none⟩, 1, false⟩
    else ⟨.assertFail, some tree, 1, false⟩

/-- The input event as seen by `invoke`: only its shift modifier is
read. -/
structure Event where
  shift : Bool
deriving DecidableEq, Repr

/-- `NODE_OT_template_add.execute` (source lines 151-154): delegates to
`node_template_add` with `ungroup` hard-coded to `True`. -/
def NODE_OT_template_add_execute (lib : String → List String)
    (attach_ok : Bool) (tree? : Option NodeTree) (filepath group_name : String) :
    AddOut :=
  node_template_add lib attach_ok tree? filepath group_name true

/-- `NODE_OT_template_add.invoke` (source lines 156-159): delegates to
`node_template_add` with `ungroup` taken from `event.shift`. -/
def NODE_OT_template_add_invoke (lib : String → List String)
    (attach_ok : Bool) (tree? : Option NodeTree) (filepath group_name : String)
    (event : Event) : AddOut :=
  node_template_add lib attach_ok tree? filepath group_name event.shift

/-- The spec's arithmetic-mean description of the insertion point, written
from the spec's words for comparison with `node_center`: sum of each
coordinate over the selection divided by the selection size, origin on an
empty selection. -/
def selectionCentroid (nodes : List GNode) : ℚ × ℚ :=
  let sel := nodes.filter (fun n => n.select)
  if sel.length = 0 then (0, 0)
  else ((sel.map (fun n => n.location.1)).sum / sel.length,
        (sel.map (fun n => n.location.2)).sum / sel.length)

/-- All entries stored across the four caches of a state. -/
def allCacheEntries (st : CacheState) : List TemplateEntry :=
  st.node_cache_geometry ++ st.node_cache_shader
    ++ st.node_cache_compositing ++ st.node_cache_texture

/-- Every cache list of the state is sorted under the tuple order. -/
def cacheStateSorted (st : CacheState) : Prop :=
  List.Sorted entryLe st.node_cache_geometry
  ∧ List.Sorted entryLe st.node_cache_shader
  ∧ List.Sorted entryLe st.node_cache_compositing
  ∧ List.Sorted entryLe st.node_cache_texture

/-- Preferences pointing the geometry category at `/t` and leaving the
other three paths unset. -/
def prefsGeo : NodeTemplatePrefs :=
  ⟨"/t", "", "", ""⟩

/-- A filesystem in which `/t` exists and contains no files. -/
def fsEmptyDir : FS :=
  ⟨fun d => d = "/t", fun _ => []⟩

/-- A filesystem in which `/t` holds `A.blend` (groups `N2`, `N1`),
`B.blend` (cannot be opened) and `C.blend` (group `M`). -/
def fsABC : FS :=
  ⟨fun d => d = "/t",
   fun d => if d = "/t" then
      [⟨"A.blend", some ["N2", "N1"]⟩, ⟨"B.blend", none⟩,
       ⟨"C.blend", some ["M"]⟩]
    else []⟩

/-- The same directory contents as `fsABC`, enumerated in another order. -/
def fsABCPerm : FS :=
  ⟨fun d => d = "/t",
   fun d => if d = "/t" then
      [⟨"C.blend", some ["M"]⟩, ⟨"A.blend", some ["N2", "N1"]⟩,
       ⟨"B.blend", none⟩]
    else []⟩

/-- A filesystem in which `/t` exists and every directory listing holds
one file containing the groups `Foo` and `_Internal`. -/
def fsFoo : FS :=
  ⟨fun d => d = "/t", fun _ => [⟨"a.blend", some ["Foo", "_Internal"]⟩]⟩

/-- A filesystem in which `/t` exists and every directory listing holds
one file containing a single group whose name is the empty string. -/
def fsEmptyName : FS :=
  ⟨fun d => d = "/t", fun _ => [⟨"a.blend", some [""]⟩]⟩

/-- A geometry tree with two selected nodes at (2,0) and (4,0). -/
def treeTwoSel : NodeTree :=
  ⟨"GeometryNodeTree", [⟨true, (2, 0), "X", none⟩, ⟨true, (4, 0), "X", none⟩], none⟩

/-- A tree of an unmapped runtime type with one selected node. -/
def treeUnknown : NodeTree :=
  ⟨"FooNodeTree", [⟨true, (1, 1), "X", none⟩], none⟩

/-- A geometry tree with one selected node, which is also active. -/
def treeOneSel : NodeTree :=
  ⟨"GeometryNodeTree", [⟨true, (1, 1), "X", none⟩], some 0⟩

/-- A library model in which every file contains exactly the group `G`. -/
def libG : String → List String :=
  fun _ => ["G"]

/-- A cache state whose geometry cache holds one entry scanned from the
directory `/old`. -/
def stOld : CacheState :=
  ⟨[("X", "/old/a.blend")], "/old", [], "", [], "", [], ""⟩


theorem charToNat_inj : ∀ {a b : Char}, a.toNat = b.toNat → a = b := by
  intro ⟨⟨va⟩, ha⟩ ⟨⟨vb⟩, hb⟩ h
  have hv : va = vb := BitVec.eq_of_toNat_eq h
  subst hv
  rfl

theorem charListLt_irrefl : ∀ l : List Char, charListLt l l = false := by
  intro l
  induction l with
  | nil => rfl
  | cons a as ih => simp [charListLt, ih]

theorem charListLt_asymm :
    ∀ a b : List Char, charListLt a b = true → charListLt b a = false := by
  intro a
  induction a with
  | nil =>
    intro b h
    cases b with
    | nil => simp [charListLt] at h
    | cons y ys => rfl
  | cons x xs ih =>
    intro b h
    cases b with
    | nil => simp [charListLt] at h
    | cons y ys =>
      rcases Nat.lt_trichotomy x.toNat y.toNat with h1 | h1 | h1
      · simp [charListLt, h1, Nat.lt_asymm h1]
      · have hxy : x = y := charToNat_inj h1
        subst hxy
        simp only [charListLt, lt_self_iff_false, if_false] at h ⊢
        exact ih ys h
      · simp [charListLt, h1, Nat.lt_asymm h1] at h

theorem charListLt_trans :
    ∀ a b c : List Char, charListLt a b = true → charListLt b c = true →
      charListLt a c = true := by
  intro a
  induction a with
  | nil =>
    intro b c hab hbc
    cases b with
    | nil => simp [charListLt] at hab
    | cons y ys =>
      cases c with
      | nil => simp [charListLt] at hbc
      | cons z zs => rfl
  | cons x xs ih =>
    intro b c hab hbc
    cases b with
    | nil => simp [charListLt] at hab
    | cons y ys =>
      cases c with
      | nil => simp [charListLt] at hbc
      | cons z zs =>
        rcases Nat.lt_trichotomy x.toNat y.toNat with h1 | h1 | h1
        · rcases Nat.lt_trichotomy y.toNat z.toNat with h2 | h2 | h2
          · simp [charListLt, Nat.lt_trans h1 h2]
          · simp [charListLt, h2 ▸ h1]
          · simp [charListLt, h2, Nat.lt_asymm h2] at hbc
        · have hxy : x = y := charToNat_inj h1
          subst hxy
          simp only [charListLt, lt_self_iff_false, if_false] at hab
          rcases Nat.lt_trichotomy x.toNat z.toNat with h2 | h2 | h2
          · simp [charListLt, h2]
          · have hxz : x = z := charToNat_inj h2
            subst hxz
            simp only [charListLt, lt_self_iff_false, if_false] at hbc ⊢
            exact ih ys zs hab hbc
          · simp [charListLt, h2, Nat.lt_asymm h2] at hbc
        · simp [charListLt, h1, Nat.lt_asymm h1] at hab

theorem charListLt_trichotomy :
    ∀ a b : List Char, charListLt a b = true ∨ a = b ∨ charListLt b a = true := by
  intro a
  induction a with
  | nil =>
    intro b
    cases b with
    | nil => exact Or.inr (Or.inl rfl)
    | cons y ys => exact Or.inl rfl
  | cons x xs ih =>
    intro b
    cases b with
    | nil => exact Or.inr (Or.inr rfl)
    | cons y ys =>
      rcases Nat.lt_trichotomy x.toNat y.toNat with h1 | h1 | h1
      · exact Or.inl (by simp [charListLt, h1])
      · have hxy : x = y := charToNat_inj h1
        subst hxy
        rcases ih ys with h2 | h2 | h2
        · exact Or.inl (by simp [charListLt, h2])
        · exact Or.inr (Or.inl (by rw [h2]))
        · exact Or.inr (Or.inr (by simp [charListLt, h2]))
      · exact Or.inr (Or.inr (by simp [charListLt, h1, Nat.lt_asymm h1]))

theorem strLt_asymm {a b : String} (h : strLt a b = true) : strLt b a = false :=
  charListLt_asymm a.data b.data h

theorem strLt_trans {a b c : String} (hab : strLt a b = true)
    (hbc : strLt b c = true) : strLt a c = true :=
  charListLt_trans a.data b.data c.data hab hbc

theorem strLt_trichotomy (a b : String) :
    strLt a b = true ∨ a = b ∨ strLt b a = true := by
  rcases charListLt_trichotomy a.data b.data with h | h | h
  · exact Or.inl h
  · refine Or.inr (Or.inl ?_)
    cases a
    cases b
    exact congrArg String.mk h
  · exact Or.inr (Or.inr h)

theorem strLt_irrefl (a : String) : strLt a a = false :=
  charListLt_irrefl a.data

theorem strLt_antisymm {a b : String} (hab : strLt b a = false)
    (hba : strLt a b = false) : a = b := by
  rcases strLt_trichotomy a b with h | h | h
  · rw [h] at hba; exact absurd hba (by simp)
  · exact h
  · rw [h] at hab; exact absurd hab (by simp)

instance : IsTotal TemplateEntry entryLe where
  total x y := by
    rcases strLt_trichotomy x.1 y.1 with h | h | h
    · exact Or.inl (Or.inl h)
    · rcases hxy : strLt y.2 x.2 with hf | ht
      · exact Or.inl (Or.inr ⟨h, hxy⟩)
      · exact Or.inr (Or.inr ⟨h.symm, strLt_asymm hxy⟩)
    · exact Or.inr (Or.inl h)

instance : IsTrans TemplateEntry entryLe where
  trans x y z hxy hyz := by
    rcases hxy with h1 | ⟨h1, h1'⟩ <;> rcases hyz with h2 | ⟨h2, h2'⟩
    · exact Or.inl (strLt_trans h1 h2)
    · exact Or.inl (h2 ▸ h1)
    · exact Or.inl (h1 ▸ h2)
    · refine Or.inr ⟨h1.trans h2, ?_⟩
      rcases hzx : strLt z.2 x.2 with hf | ht
      · rfl
      · rcases strLt_trichotomy x.2 y.2 with h3 | h3 | h3
        · have : strLt z.2 y.2 = true := strLt_trans hzx h3
          rw [this] at h2'
          exact absurd h2' (by simp)
        · rw [h3] at hzx
          rw [hzx] at h2'
          exact absurd h2' (by simp)
        · rw [h3] at h1'
          exact absurd h1' (by simp)

instance : IsAntisymm TemplateEntry entryLe where
  antisymm x y hxy hyx := by
    rcases hxy with h1 | ⟨h1, h1'⟩ <;> rcases hyx with h2 | ⟨h2, h2'⟩
    · rw [strLt_asymm h1] at h2
      exact absurd h2 (by simp)
    · rw [h2, strLt_irrefl] at h1
      exact absurd h1 (by simp)
    · rw [h1, strLt_irrefl] at h2
      exact absurd h2 (by simp)
    · exact Prod.ext h1 (strLt_antisymm h1' h2')

/-! Helper lemmas about the embedding, shared by the claim theorems. -/

theorem foldl_pair_sum (l : List GNode) (a : ℚ × ℚ) :
    l.foldl (fun acc n => (acc.1 + n.location.1, acc.2 + n.location.2)) a
      = (a.1 + (l.map (fun n => n.location.1)).sum,
         a.2 + (l.map (fun n => n.location.2)).sum) := by
  induction l generalizing a with
  | nil => simp
  | cons x xs ih => simp [ih, add_assoc]

theorem node_center_eq_centroid (ns : List GNode) :
    node_center ns = selectionCentroid ns := by
  unfold node_center selectionCentroid
  cases h : ns.filter (fun n => n.select) with
  | nil => simp [h]
  | cons x xs =>
    simp only [h, foldl_pair_sum, List.length_cons, zero_add]
    have hne : (x :: xs).length ≠ 0 := by simp
    simp [hne]

theorem cacheFor_storeCache (st : CacheState) (ui : String)
    (c : List TemplateEntry) (p : String) (c0 : List TemplateEntry) (p0 : String)
    (h : cacheFor st ui = some (c0, p0)) :
    cacheFor (storeCache st ui c p) ui = some (c, p) := by
  unfold cacheFor storeCache at *
  split_ifs at h ⊢ <;> simp_all

theorem ntc_scan_change_dir (fs : FS) (prefs : NodeTemplatePrefs) (ui : String)
    (st : CacheState) (reload : Bool) (dirpath : String)
    (c0 : List TemplateEntry) (p0 : String)
    (hns : node_search_path prefs ui = some dirpath)
    (hde : fs.dirExists dirpath = true) (hdn : dirpath ≠ "")
    (hcf : cacheFor st ui = some (c0, p0)) (hp : p0 ≠ dirpath) :
    node_template_cache fs prefs (some ui) reload st
      = ⟨pySorted (scanDir dirpath (fs.listdir dirpath)),
         storeCache st ui (pySorted (scanDir dirpath (fs.listdir dirpath))) dirpath,
         1⟩ := by
  simp [node_template_cache, hns, hde, hdn, hcf, hp]

theorem ntc_cached_return (fs : FS) (prefs : NodeTemplatePrefs) (ui : String)
    (st : CacheState) (dirpath : String)
    (c0 : List TemplateEntry) (p0 : String)
    (hns : node_search_path prefs ui = some dirpath)
    (hde : fs.dirExists dirpath = true) (hdn : dirpath ≠ "")
    (hcf : cacheFor st ui = some (c0, p0))
    (hp : p0 = dirpath) (hc : c0 ≠ []) :
    node_template_cache fs prefs (some ui) false st = ⟨c0, st, 0⟩ := by
  simp [node_template_cache, hns, hde, hdn, hcf, hp, hc]

theorem ntc_scan_empty_cache (fs : FS) (prefs : NodeTemplatePrefs) (ui : String)
    (st : CacheState) (dirpath : String) (p0 : String)
    (hns : node_search_path prefs ui = some dirpath)
    (hde : fs.dirExists dirpath = true) (hdn : dirpath ≠ "")
    (hcf : cacheFor st ui = some ([], p0)) :
    node_template_cache fs prefs (some ui) false st
      = ⟨pySorted (scanDir dirpath (fs.listdir dirpath)),
         storeCache st ui (pySorted (scanDir dirpath (fs.listdir dirpath))) dirpath,
         1⟩ := by
  by_cases hp : p0 = dirpath
  · simp [node_template_cache, hns, hde, hdn, hcf, hp]
  · simp [node_template_cache, hns, hde, hdn, hcf, hp]

theorem ntc_scan_reload_true (fs : FS) (prefs : NodeTemplatePrefs) (ui : String)
    (st : CacheState) (dirpath : String)
    (c0 : List TemplateEntry) (p0 : String)
    (hns : node_search_path prefs ui = some dirpath)
    (hde : fs.dirExists dirpath = true) (hdn : dirpath ≠ "")
    (hcf : cacheFor st ui = some (c0, p0)) :
    node_template_cache fs prefs (some ui) true st
      = ⟨pySorted (scanDir dirpath (fs.listdir dirpath)),
         storeCache st ui (pySorted (scanDir dirpath (fs.listdir dirpath))) dirpath,
         1⟩ := by
  by_cases hp : p0 = dirpath
  · simp [node_template_cache, hns, hde, hdn, hcf, hp]
  · simp [node_template_cache, hns, hde, hdn, hcf, hp]

theorem ntc_second_call (fs : FS) (prefs : NodeTemplatePrefs)
    (ui : Option String) (st : CacheState)
    (hne : (node_template_cache fs prefs ui false st).result ≠ []) :
    node_template_cache fs prefs ui false
        (node_template_cache fs prefs ui false st).state
      = ⟨(node_template_cache fs prefs ui false st).result,
         (node_template_cache fs prefs ui false st).state, 0⟩ := by
  cases ui with
  | none => simp [node_template_cache] at hne
  | some ui =>
    cases hns : node_search_path prefs ui with
    | none => simp [node_template_cache, hns] at hne
    | some dirpath =>
      by_cases hdn : dirpath = ""
      · simp [node_template_cache, hns, hdn] at hne
      · cases hde : fs.dirExists dirpath with
        | false => simp [node_template_cache, hns, hde] at hne
        | true =>
          cases hcf : cacheFor st ui with
          | none => simp [node_template_cache, hns, hdn, hde, hcf] at hne
          | some pair =>
            obtain ⟨c0, p0⟩ := pair
            by_cases hp : p0 = dirpath
            · by_cases hc : c0 = []
              · subst hc
                rw [ntc_scan_empty_cache fs prefs ui st dirpath p0 hns hde hdn hcf]
                rw [ntc_scan_empty_cache fs prefs ui st dirpath p0 hns hde hdn hcf] at hne
                simp only [CacheOut.mk.injEq] at hne ⊢
                rw [ntc_cached_return fs prefs ui _ dirpath _ dirpath hns hde hdn
                  (cacheFor_storeCache st ui _ dirpath [] p0 hcf) rfl (by simpa using hne)]
              · rw [ntc_cached_return fs prefs ui st dirpath c0 p0 hns hde hdn hcf hp hc]
                exact ntc_cached_return fs prefs ui st dirpath c0 p0 hns hde hdn hcf hp hc
            · rw [ntc_scan_change_dir fs prefs ui st false dirpath c0 p0 hns hde hdn hcf hp]
              rw [ntc_scan_change_dir fs prefs ui st false dirpath c0 p0 hns hde hdn hcf hp] at hne
              simp only [CacheOut.mk.injEq] at hne ⊢
              rw [ntc_cached_return fs prefs ui _ dirpath _ dirpath hns hde hdn
                (cacheFor_storeCache st ui _ dirpath c0 p0 hcf) rfl (by simpa using hne)]

theorem pySorted_sorted (l : List TemplateEntry) :
    List.Sorted entryLe (pySorted l) :=
  List.sorted_insertionSort entryLe l

theorem pySorted_perm (l : List TemplateEntry) :
    List.Perm (pySorted l) l :=
  List.perm_insertionSort entryLe l

theorem pySorted_congr_perm {l1 l2 : List TemplateEntry} (h : List.Perm l1 l2) :
    pySorted l1 = pySorted l2 :=
  List.eq_of_perm_of_sorted ((pySorted_perm l1).trans (h.trans (pySorted_perm l2).symm))
    (pySorted_sorted l1) (pySorted_sorted l2)

theorem ntc_fs_perm_congr (fs fs' : FS) (prefs : NodeTemplatePrefs)
    (ui : Option String) (reload : Bool) (st : CacheState)
    (hex : fs.dirExists = fs'.dirExists)
    (hl : ∀ d, List.Perm (fs.listdir d) (fs'.listdir d)) :
    node_template_cache fs prefs ui reload st
      = node_template_cache fs' prefs ui reload st := by
  cases ui with
  | none => rfl
  | some ui =>
    cases hns : node_search_path prefs ui with
    | none => simp [node_template_cache, hns]
    | some dirpath =>
      have hsc : pySorted (scanDir dirpath (fs.listdir dirpath))
          = pySorted (scanDir dirpath (fs'.listdir dirpath)) :=
        pySorted_congr_perm ((hl dirpath).flatMap_right _)
      simp only [node_template_cache, hns, hex, hsc]

theorem cacheFor_sorted {st : CacheState} {ui : String}
    {c0 : List TemplateEntry} {p0 : String} (hs : cacheStateSorted st)
    (h : cacheFor st ui = some (c0, p0)) : List.Sorted entryLe c0 := by
  obtain ⟨h1, h2, h3, h4⟩ := hs
  unfold cacheFor at h
  split_ifs at h <;> simp_all

theorem storeCache_sorted {st : CacheState} (hs : cacheStateSorted st)
    (ui : String) (c : List TemplateEntry) (p : String)
    (hc : List.Sorted entryLe c) : cacheStateSorted (storeCache st ui c p) := by
  obtain ⟨h1, h2, h3, h4⟩ := hs
  unfold storeCache cacheStateSorted
  split_ifs <;> exact ⟨by simp_all, by simp_all, by simp_all, by simp_all⟩

theorem ntc_sorted (fs : FS) (prefs : NodeTemplatePrefs) (ui : Option String)
    (reload : Bool) (st : CacheState) (hs : cacheStateSorted st) :
    List.Sorted entryLe (node_template_cache fs prefs ui reload st).result
    ∧ cacheStateSorted (node_template_cache fs prefs ui reload st).state := by
  cases ui with
  | none => exact ⟨List.sorted_nil, hs⟩
  | some ui =>
    cases hns : node_search_path prefs ui with
    | none => simpa [node_template_cache, hns] using hs
    | some dirpath =>
      by_cases hdn : dirpath = ""
      · simpa [node_template_cache, hns, hdn] using hs
      · cases hde : fs.dirExists dirpath with
        | false => simpa [node_template_cache, hns, hde] using hs
        | true =>
          cases hcf : cacheFor st ui with
          | none => simpa [node_template_cache, hns, hdn, hde, hcf] using hs
          | some pair =>
            obtain ⟨c0, p0⟩ := pair
            cases reload with
            | true =>
              rw [ntc_scan_reload_true fs prefs ui st dirpath c0 p0 hns hde hdn hcf]
              exact ⟨pySorted_sorted _, storeCache_sorted hs ui _ dirpath (pySorted_sorted _)⟩
            | false =>
              by_cases hp : p0 = dirpath
              · by_cases hc : c0 = []
                · subst hc
                  rw [ntc_scan_empty_cache fs prefs ui st dirpath p0 hns hde hdn hcf]
                  exact ⟨pySorted_sorted _, storeCache_sorted hs ui _ dirpath (pySorted_sorted _)⟩
                · rw [ntc_cached_return fs prefs ui st dirpath c0 p0 hns hde hdn hcf hp hc]
                  exact ⟨cacheFor_sorted hs hcf, hs⟩
              · rw [ntc_scan_change_dir fs prefs ui st false dirpath c0 p0 hns hde hdn hcf hp]
                exact ⟨pySorted_sorted _, storeCache_sorted hs ui _ dirpath (pySorted_sorted _)⟩

theorem mem_scanDir {d : String} {files : List BlendFile} {e : TemplateEntry}
    (he : e ∈ scanDir d files) :
    ∃ f ∈ files, ∃ gs, f.groups = some gs ∧ e.1 ∈ gs
      ∧ pyStartsWith e.1 "_" = false := by
  unfold scanDir at he
  rw [List.mem_flatMap] at he
  obtain ⟨f, hf, he⟩ := he
  refine ⟨f, hf, ?_⟩
  by_cases hb : pyEndsWith f.fname ".blend"
  · rw [if_pos hb] at he
    cases hg : f.groups with
    | none => rw [hg] at he; simp at he
    | some gs =>
      rw [hg] at he
      rw [List.mem_map] at he
      obtain ⟨g, hg2, rfl⟩ := he
      rw [List.mem_filter] at hg2
      exact ⟨gs, rfl, hg2.1, by simpa using hg2.2⟩
  · rw [if_neg hb] at he
    simp at he

theorem cacheFor_subset_all {st : CacheState} {ui : String}
    {c0 : List TemplateEntry} {p0 : String}
    (h : cacheFor st ui = some (c0, p0)) :
    ∀ e ∈ c0, e ∈ allCacheEntries st := by
  intro e he
  unfold cacheFor at h
  unfold allCacheEntries
  split_ifs at h <;> simp_all

theorem ntc_entry_names (fs : FS) (prefs : NodeTemplatePrefs) (ui : Option String)
    (reload : Bool) (st : CacheState)
    (hst : ∀ e ∈ allCacheEntries st, pyStartsWith e.1 "_" = false ∧ e.1 ≠ "")
    (hfs : ∀ d f, f ∈ fs.listdir d → ∀ gs, f.groups = some gs → ∀ g ∈ gs, g ≠ "") :
    ∀ e ∈ (node_template_cache fs prefs ui reload st).result,
      pyStartsWith e.1 "_" = false ∧ e.1 ≠ "" := by
  have hscan : ∀ dirpath, ∀ e ∈ pySorted (scanDir dirpath (fs.listdir dirpath)),
      pyStartsWith e.1 "_" = false ∧ e.1 ≠ "" := by
    intro dirpath e he
    rw [(pySorted_perm _).mem_iff] at he
    obtain ⟨f, hf, gs, hgs, hmem, hus⟩ := mem_scanDir he
    exact ⟨hus, hfs dirpath f hf gs hgs e.1 hmem⟩
  cases ui with
  | none => simp [node_template_cache]
  | some ui =>
    cases hns : node_search_path prefs ui with
    | none => simp [node_template_cache, hns]
    | some dirpath =>
      by_cases hdn : dirpath = ""
      · simp [node_template_cache, hns, hdn]
      · cases hde : fs.dirExists dirpath with
        | false => simp [node_template_cache, hns, hde]
        | true =>
          cases hcf : cacheFor st ui with
          | none => simp [node_template_cache, hns, hdn, hde, hcf]
          | some pair =>
            obtain ⟨c0, p0⟩ := pair
            cases reload with
            | true =>
              rw [ntc_scan_reload_true fs prefs ui st dirpath c0 p0 hns hde hdn hcf]
              exact hscan dirpath
            | false =>
              by_cases hp : p0 = dirpath
              · by_cases hc : c0 = []
                · subst hc
                  rw [ntc_scan_empty_cache fs prefs ui st dirpath p0 hns hde hdn hcf]
                  exact hscan dirpath
                · rw [ntc_cached_return fs prefs ui st dirpath c0 p0 hns hde hdn hcf hp hc]
                  intro e he
                  exact hst e (cacheFor_subset_all hcf e he)
              · rw [ntc_scan_change_dir fs prefs ui st false dirpath c0 p0 hns hde hdn hcf hp]
                exact hscan dirpath

/-! The claim theorems, with their witnesses and counterexamples. -/

/-- C1, counterexample: on a directory whose scan yields no templates, two
calls with the same directory and `reload=false` from the initial state
perform two directory scans, not at most one — an empty scan result is
indistinguishable from a cold cache, so it is never effectively cached. -/
theorem cache_rescan_on_empty_counterexample :
    ¬ ((node_template_cache fsEmptyDir prefsGeo (some "GeometryNodeTree") false
          initCacheState).scans
        + (node_template_cache fsEmptyDir prefsGeo (some "GeometryNodeTree") false
            (node_template_cache fsEmptyDir prefsGeo (some "GeometryNodeTree") false
              initCacheState).state).scans ≤ 1) := by
  decide

/-- C1 (amended): when the first call's result is non-empty, a second call
with the same directory and `reload=false` performs no scan and returns
the cached sequence and state unchanged; and when the configured directory
differs from the cache's stored path (non-empty and existing), the call
performs exactly one rescan. -/
theorem cache_second_call_cached_dir_change_rescans :
    (∀ (fs : FS) (prefs : NodeTemplatePrefs) (ui : Option String) (st : CacheState),
      (node_template_cache fs prefs ui false st).result ≠ [] →
      node_template_cache fs prefs ui false
          (node_template_cache fs prefs ui false st).state
        = ⟨(node_template_cache fs prefs ui false st).result,
           (node_template_cache fs prefs ui false st).state, 0⟩)
    ∧ (∀ (fs : FS) (prefs : NodeTemplatePrefs) (ui : String) (st : CacheState)
        (reload : Bool) (dirpath : String) (c0 : List TemplateEntry) (p0 : String),
        node_search_path prefs ui = some dirpath →
        fs.dirExists dirpath = true → dirpath ≠ "" →
        cacheFor st ui = some (c0, p0) → p0 ≠ dirpath →
        (node_template_cache fs prefs (some ui) reload st).scans = 1) := by
  constructor
  · exact ntc_second_call
  · intro fs prefs ui st reload dirpath c0 p0 hns hde hdn hcf hp
    rw [ntc_scan_change_dir fs prefs ui st reload dirpath c0 p0 hns hde hdn hcf hp]

/-- C1, witness: concrete instances of both parts — a second call on the
populated `/t` cache is served without scanning, and a call whose stored
path `/old` differs from the configured `/t` scans exactly once. -/
theorem cache_second_call_witness :
    node_template_cache fsABC prefsGeo (some "GeometryNodeTree") false
        (node_template_cache fsABC prefsGeo (some "GeometryNodeTree") false
          initCacheState).state
      = ⟨(node_template_cache fsABC prefsGeo (some "GeometryNodeTree") false
            initCacheState).result,
         (node_template_cache fsABC prefsGeo (some "GeometryNodeTree") false
            initCacheState).state, 0⟩
    ∧ (node_template_cache fsABC prefsGeo (some "GeometryNodeTree") false stOld).scans
        = 1 :=
  ⟨cache_second_call_cached_dir_change_rescans.1 fsABC prefsGeo
      (some "GeometryNodeTree") initCacheState (by decide),
   cache_second_call_cached_dir_change_rescans.2 fsABC prefsGeo
      "GeometryNodeTree" stOld false "/t" [("X", "/old/a.blend")] "/old"
      (by rfl) (by decide) (by decide) (by rfl) (by decide)⟩

/-- C2, counterexample: importing into a graph of the unmapped runtime
type `FooNodeTree` with one selected node does raise the KeyError and
creates no node, but the graph is mutated before the failure: the node's
selection has been cleared, so the final tree differs from the initial
one. -/
theorem add_unsupported_context_counterexample :
    (node_template_add libG true (some treeUnknown) "/f" "G" false).result = .keyError
    ∧ (node_template_add libG true (some treeUnknown) "/f" "G" false).tree
        = some ⟨"FooNodeTree", [⟨false, (1, 1), "X", none⟩], none⟩
    ∧ (node_template_add libG true (some treeUnknown) "/f" "G" false).tree
        ≠ some treeUnknown := by
  decide

/-- C2 (amended): against a graph whose runtime type has no mapping (and
with the asset present in the file), `node_template_add` ends in the
uncaught KeyError with no node created and the node count unchanged, but
the selection of every node has already been cleared when the failure
occurs. -/
theorem add_unsupported_context_no_node_created
    (lib : String → List String) (attach_ok : Bool) (tree : NodeTree)
    (filepath node_group : String) (ungroup : Bool)
    (hmem : node_group ∈ lib filepath)
    (hty : node_type_string tree.typeName = none) :
    node_template_add lib attach_ok (some tree) filepath node_group ungroup
      = ⟨.keyError,
         some { tree with nodes := tree.nodes.map (fun n => { n with select := false }) },
         1, false⟩
    ∧ ((node_template_add lib attach_ok (some tree) filepath node_group ungroup).tree.map
        (fun t => t.nodes.length)) = some tree.nodes.length := by
  have h : node_template_add lib attach_ok (some tree) filepath node_group ungroup
      = ⟨.keyError,
         some { tree with nodes := tree.nodes.map (fun n => { n with select := false }) },
         1, false⟩ := by
    simp [node_template_add, hmem, hty]
  exact ⟨h, by rw [h]; simp⟩

/-- C2, witness: the amended statement instantiated on the concrete
unmapped tree. -/
theorem add_unsupported_context_witness :
    node_template_add libG true (some treeUnknown) "/f" "G" false
      = ⟨.keyError, some ⟨"FooNodeTree", [⟨false, (1, 1), "X", none⟩], none⟩,
         1, false⟩ := by
  have h := (add_unsupported_context_no_node_created libG true treeUnknown
    "/f" "G" false (by decide) (by rfl)).1
  rw [h]
  rfl

/-- C3, counterexample: when attaching the loaded group fails on a graph
with one selected node, the call warns and the node count is restored,
but the graph is visibly changed: the pre-existing node is left
deselected and the active node is reset. -/
theorem add_attach_failure_counterexample :
    (node_template_add libG false (some treeOneSel) "/f" "G" true).result
        = .finished true
    ∧ (node_template_add libG false (some treeOneSel) "/f" "G" true).tree
        = some ⟨"GeometryNodeTree", [⟨false, (1, 1), "X", none⟩], none⟩
    ∧ (node_template_add libG false (some treeOneSel) "/f" "G" true).tree
        ≠ some treeOneSel := by
  decide

/-- C3 (amended): when attaching the loaded node group fails, the call
reports a warning, removes the newly created node and stops (no ungroup),
so the node count equals the count before the call; but the previous
selection is not restored — every node ends deselected and the active
pointer is cleared, a visible change whenever a node was selected. -/
theorem add_attach_failure_preserves_node_count
    (lib : String → List String) (tree : NodeTree)
    (filepath node_group : String) (ungroup : Bool) (nts : String)
    (hmem : node_group ∈ lib filepath)
    (hty : node_type_string tree.typeName = some nts) :
    node_template_add lib false (some tree) filepath node_group ungroup
      = ⟨.finished true,
         some ⟨tree.typeName, tree.nodes.map (fun n => { n with select := false }), none⟩,
         1, false⟩
    ∧ ((node_template_add lib false (some tree) filepath node_group ungroup).tree.map
        (fun t => t.nodes.length)) = some tree.nodes.length := by
  have h : node_template_add lib false (some tree) filepath node_group ungroup
      = ⟨.finished true,
         some ⟨tree.typeName, tree.nodes.map (fun n => { n with select := false }), none⟩,
         1, false⟩ := by
    simp [node_template_add, hmem, hty]
  exact ⟨h, by rw [h]; simp⟩

/-- C3, witness: the amended statement instantiated on the concrete
one-node geometry tree. -/
theorem add_attach_failure_witness :
    node_template_add libG false (some treeOneSel) "/f" "G" true
      = ⟨.finished true,
         some ⟨"GeometryNodeTree", [⟨false, (1, 1), "X", none⟩], none⟩,
         1, false⟩ := by
  have h := (add_attach_failure_preserves_node_count libG treeOneSel "/f" "G" true
    "GeometryNodeGroup" (by decide) (by rfl)).1
  rw [h]
  rfl

/-- C4: a file that cannot be opened contributes zero entries to the scan
without aborting it — removing the unopenable file from the listing leaves
the scan result unchanged — and on the concrete {A (2 templates),
B (corrupt), C (1 template)} directory the result has exactly 3 entries,
none from B, and the cache's persisted state holds exactly that result. -/
theorem scan_skips_unopenable_files (d : String) (xs ys : List BlendFile)
    (b : BlendFile) (hb : b.groups = none) :
    scanDir d (xs ++ b :: ys) = scanDir d (xs ++ ys)
    ∧ (node_template_cache fsABC prefsGeo (some "GeometryNodeTree") false
        initCacheState).result.length = 3
    ∧ (∀ e ∈ (node_template_cache fsABC prefsGeo (some "GeometryNodeTree") false
        initCacheState).result, e.2 ≠ "/t/B.blend")
    ∧ (node_template_cache fsABC prefsGeo (some "GeometryNodeTree") false
        initCacheState).state.node_cache_geometry
      = (node_template_cache fsABC prefsGeo (some "GeometryNodeTree") false
        initCacheState).result := by
  refine ⟨?_, by decide, by decide, by decide⟩
  simp [scanDir, hb]

/-- C4, witness: the skip property instantiated on the concrete A/B/C
directory listing with B unopenable. -/
theorem scan_skips_unopenable_files_witness :
    scanDir "/t" ([⟨"A.blend", some ["N2", "N1"]⟩] ++ ⟨"B.blend", none⟩
        :: [⟨"C.blend", some ["M"]⟩])
      = scanDir "/t" ([⟨"A.blend", some ["N2", "N1"]⟩] ++ [⟨"C.blend", some ["M"]⟩]) :=
  (scan_skips_unopenable_files "/t" [⟨"A.blend", some ["N2", "N1"]⟩]
    [⟨"C.blend", some ["M"]⟩] ⟨"B.blend", none⟩ (by rfl)).1

/-- C5: the template-cache listing is independent of filesystem
enumeration order (permuting any directory listing leaves the whole
output unchanged), its result is sorted ascending by (name, path)
whenever every cached list in the incoming state is sorted, that
sortedness is preserved as an invariant of the state, and the initial
state satisfies it. -/
theorem cache_sorted_and_enumeration_independent :
    (∀ (fs fs' : FS) (prefs : NodeTemplatePrefs) (ui : Option String)
        (reload : Bool) (st : CacheState),
      fs.dirExists = fs'.dirExists →
      (∀ d, List.Perm (fs.listdir d) (fs'.listdir d)) →
      node_template_cache fs prefs ui reload st
        = node_template_cache fs' prefs ui reload st)
    ∧ (∀ (fs : FS) (prefs : NodeTemplatePrefs) (ui : Option String)
        (reload : Bool) (st : CacheState), cacheStateSorted st →
      List.Sorted entryLe (node_template_cache fs prefs ui reload st).result
      ∧ cacheStateSorted (node_template_cache fs prefs ui reload st).state)
    ∧ cacheStateSorted initCacheState :=
  ⟨ntc_fs_perm_congr, ntc_sorted,
   ⟨List.sorted_nil, List.sorted_nil, List.sorted_nil, List.sorted_nil⟩⟩

/-- C5, witness: the A/B/C directory enumerated in two different orders
yields identical output, and the result from the initial state is
sorted. -/
theorem cache_sorted_witness :
    node_template_cache fsABC prefsGeo (some "GeometryNodeTree") false initCacheState
      = node_template_cache fsABCPerm prefsGeo (some "GeometryNodeTree") false
          initCacheState
    ∧ List.Sorted entryLe
        (node_template_cache fsABC prefsGeo (some "GeometryNodeTree") false
          initCacheState).result :=
  ⟨cache_sorted_and_enumeration_independent.1 fsABC fsABCPerm prefsGeo
      (some "GeometryNodeTree") false initCacheState rfl
      (by
        intro d
        by_cases hd : d = "/t"
        · subst hd
          simp only [fsABC, fsABCPerm, if_pos]
          decide
        · simp [fsABC, fsABCPerm, hd]),
   (cache_sorted_and_enumeration_independent.2.1 fsABC prefsGeo
      (some "GeometryNodeTree") false initCacheState
      cache_sorted_and_enumeration_independent.2.2).1⟩

/-- C6: on a successful import the new node is appended at the arithmetic
mean of the selected nodes' positions (the spec-side `selectionCentroid`,
which `node_center` computes), selected and active, every other node
deselected; and with an empty selection the insertion point is the
origin. -/
theorem add_places_node_at_selection_centroid
    (lib : String → List String) (tree : NodeTree)
    (filepath node_group : String) (ungroup : Bool) (nts : String)
    (hmem : node_group ∈ lib filepath)
    (hty : node_type_string tree.typeName = some nts) :
    node_template_add lib true (some tree) filepath node_group ungroup
      = ⟨.finished false,
         some ⟨tree.typeName,
               tree.nodes.map (fun n => { n with select := false })
                 ++ [⟨true, selectionCentroid tree.nodes, nts, some node_group⟩],
               some tree.nodes.length⟩,
         1, ungroup⟩
    ∧ (∀ ns : List GNode, ns.filter (fun n => n.select) = [] →
        node_center ns = (0, 0)) := by
  constructor
  · simp [node_template_add, hmem, hty, node_center_eq_centroid]
  · intro ns hns
    unfold node_center
    rw [hns]

/-- C6, witness: with selection at (2,0) and (4,0) the new node is placed
at (3,0), and the empty selection places at the origin. -/
theorem add_places_node_witness :
    node_template_add libG true (some treeTwoSel) "/f" "G" false
      = ⟨.finished false,
         some ⟨"GeometryNodeTree",
               [⟨false, (2, 0), "X", none⟩, ⟨false, (4, 0), "X", none⟩,
                ⟨true, (3, 0), "GeometryNodeGroup", some "G"⟩],
               some 2⟩,
         1, false⟩
    ∧ node_center [] = (0, 0) := by
  have h := add_places_node_at_selection_centroid libG treeTwoSel "/f" "G" false
    "GeometryNodeGroup" (by decide) (by rfl)
  refine ⟨?_, h.2 [] rfl⟩
  rw [h.1]
  have hc : selectionCentroid treeTwoSel.nodes = (3, 0) := by
    unfold selectionCentroid treeTwoSel
    norm_num
  rw [hc]
  rfl

/-- C7, counterexample: the scan filter only excludes a leading
underscore, so a library reporting a group named by the empty string
produces a result entry whose name is empty — non-emptiness is not
enforced by this code. -/
theorem cache_empty_name_counterexample :
    ¬ (∀ e ∈ (node_template_cache fsEmptyName prefsGeo (some "GeometryNodeTree") false
          initCacheState).result, e.1 ≠ "") := by
  decide

/-- C7 (amended): every entry of any listing has a name that does not
begin with an underscore, and is additionally non-empty provided the host
never reports an empty group name and the incoming cache state already
satisfies both properties (as the state grown from the initial state
does); the file {"Foo", "_Internal"} concretely yields only {"Foo"}. -/
theorem cache_names_exclude_underscore :
    (∀ (fs : FS) (prefs : NodeTemplatePrefs) (ui : Option String)
        (reload : Bool) (st : CacheState),
      (∀ e ∈ allCacheEntries st, pyStartsWith e.1 "_" = false ∧ e.1 ≠ "") →
      (∀ d f, f ∈ fs.listdir d → ∀ gs, f.groups = some gs → ∀ g ∈ gs, g ≠ "") →
      ∀ e ∈ (node_template_cache fs prefs ui reload st).result,
        pyStartsWith e.1 "_" = false ∧ e.1 ≠ "")
    ∧ (node_template_cache fsFoo prefsGeo (some "GeometryNodeTree") false
        initCacheState).result = [("Foo", "/t/a.blend")] :=
  ⟨ntc_entry_names, by decide⟩

/-- C7, witness: the filtering property instantiated on the {"Foo",
"_Internal"} library over the initial state. -/
theorem cache_names_witness :
    ∀ e ∈ (node_template_cache fsFoo prefsGeo (some "GeometryNodeTree") false
        initCacheState).result,
      pyStartsWith e.1 "_" = false ∧ e.1 ≠ "" :=
  cache_names_exclude_underscore.1 fsFoo prefsGeo (some "GeometryNodeTree") false
    initCacheState
    (by decide)
    (by
      intro d f hf gs hgs g hg
      simp only [fsFoo, List.mem_singleton] at hf
      subst hf
      simp only at hgs
      have hgs2 : gs = ["Foo", "_Internal"] := by
        injection hgs with h2
        exact h2.symm
      subst hgs2
      fin_cases hg <;> decide)

/-- C8: with a non-null tree, the assertion guarding the asset load never
fires when the named group exists in the file (the AssertionError outcome
is unreachable under that precondition), and when the name is absent the
call ends in the uncaught AssertionError — a loud programming-error-level
failure. -/
theorem add_assert_guards_asset_load
    (lib : String → List String) (attach_ok : Bool) (tree : NodeTree)
    (filepath node_group : String) (ungroup : Bool) :
    (node_group ∈ lib filepath →
      (node_template_add lib attach_ok (some tree) filepath node_group ungroup).result
        ≠ .assertFail)
    ∧ (node_group ∉ lib filepath →
      (node_template_add lib attach_ok (some tree) filepath node_group ungroup).result
        = .assertFail) := by
  constructor
  · intro hmem
    simp only [node_template_add, if_pos hmem]
    cases hty : node_type_string tree.typeName with
    | none => simp
    | some nts => cases attach_ok <;> simp
  · intro hmem
    simp [node_template_add, hmem]

/-- C8, witness: both parts instantiated concretely — a present name never
reaches the assertion failure, an absent name does. -/
theorem add_assert_guards_witness :
    (node_template_add libG true (some treeTwoSel) "/f" "G" false).result
      ≠ .assertFail
    ∧ (node_template_add (fun _ => []) true (some treeTwoSel) "/f" "G" false).result
      = .assertFail :=
  ⟨(add_assert_guards_asset_load libG true treeTwoSel "/f" "G" false).1 (by decide),
   (add_assert_guards_asset_load (fun _ => []) true treeTwoSel "/f" "G" false).2
     (by decide)⟩

/-- C9: with a null edited tree the call reports the error and returns
before any mutation: the library is never loaded, no tree mutation
happens, no node is created and no ungroup is invoked. -/
theorem add_null_tree_aborts_before_mutation
    (lib : String → List String) (attach_ok : Bool)
    (filepath node_group : String) (ungroup : Bool) :
    node_template_add lib attach_ok none filepath node_group ungroup
      = ⟨.errNoTree, none, 0, false⟩ :=
  rfl

/-- C10: `execute` delegates with `ungroup` hard-coded to true and
`invoke` delegates with `ungroup` taken from the event's shift modifier;
hence a successful execute-path import always invokes the ungroup
operation, and an invoke-path call with shift unpressed never does. -/
theorem execute_forces_ungroup_invoke_reads_shift :
    (∀ (lib : String → List String) (attach_ok : Bool) (tree? : Option NodeTree)
        (filepath group_name : String),
      NODE_OT_template_add_execute lib attach_ok tree? filepath group_name
        = node_template_add lib attach_ok tree? filepath group_name true)
    ∧ (∀ (lib : String → List String) (attach_ok : Bool) (tree? : Option NodeTree)
        (filepath group_name : String) (event : Event),
      NODE_OT_template_add_invoke lib attach_ok tree? filepath group_name event
        = node_template_add lib attach_ok tree? filepath group_name event.shift)
    ∧ (∀ (lib : String → List String) (tree : NodeTree)
        (filepath group_name nts : String),
        group_name ∈ lib filepath → node_type_string tree.typeName = some nts →
        (NODE_OT_template_add_execute lib true (some tree) filepath group_name).ungrouped
          = true)
    ∧ (∀ (lib : String → List String) (attach_ok : Bool) (tree? : Option NodeTree)
        (filepath group_name : String) (event : Event), event.shift = false →
        (NODE_OT_template_add_invoke lib attach_ok tree? filepath group_name
          event).ungrouped = false) := by
  refine ⟨fun _ _ _ _ _ => rfl, fun _ _ _ _ _ _ => rfl, ?_, ?_⟩
  · intro lib tree filepath group_name nts hmem hty
    simp [NODE_OT_template_add_execute, node_template_add, hmem, hty]
  · intro lib attach_ok tree? filepath group_name event hshift
    cases tree? with
    | none => rfl
    | some tree =>
      unfold NODE_OT_template_add_invoke
      by_cases hmem : group_name ∈ lib filepath
      · simp only [node_template_add, if_pos hmem]
        cases hty : node_type_string tree.typeName with
        | none => simp
        | some nts => cases attach_ok <;> simp [hshift]
      · simp [node_template_add, hmem]

/-- C10, witness: a successful execute-path import on the concrete tree
ungroups, and an invoke-path call with shift unpressed does not. -/
theorem execute_forces_ungroup_witness :
    (NODE_OT_template_add_execute libG true (some treeTwoSel) "/f" "G").ungrouped = true
    ∧ (NODE_OT_template_add_invoke libG true (some treeTwoSel) "/f" "G"
        ⟨false⟩).ungrouped = false :=
  ⟨execute_forces_ungroup_invoke_reads_shift.2.2.1 libG treeTwoSel "/f" "G"
      "GeometryNodeGroup" (by decide) (by rfl),
   execute_forces_ungroup_invoke_reads_shift.2.2.2 libG true (some treeTwoSel)
      "/f" "G" ⟨false⟩ rfl⟩
